import Mathlib

/-!
The survey classifier and the advice fetcher of ai-anxiety-webapp.

A shallow embedding of `main.go`.  Go `string` is `String`, Go `int` is `Int`
(64-bit; the classifier only compares its arguments, the parser clamps
explicitly), a Go `error` is `Option String` carrying the message (`none` is
`nil`), and a Go `(string, error)` result is a pair.
-/

namespace AiAnxiety

/-! ## The profile classifier -/

/-- The function `classifyProfile` of `main.go`: returns the profile name and
the local advice text. -/
def classifyProfile (conf worry human : Int) : String × String :=
  if conf ≥ 4 ∧ worry ≥ 4 then
    ("Aware but Anxious", "You understand AI well, but you’re concerned about job impact. Focus on adapting and building human-AI collaboration skills.")
  else if conf ≤ 2 then
    ("Low Confidence", "Start small. Try simple, hands-on AI tasks — your confidence will grow quickly through experience.")
  else if conf ≥ 4 ∧ worry ≤ 2 then
    ("Confident and Adaptive", "You’re ready to lead. Share what you know and help others understand AI’s potential.")
  else if human ≥ 4 then
    ("Human-Centered Learner", "You value creativity and empathy — keep combining those with AI skills for the best of both worlds.")
  else
    ("Curious Learner", "Stay curious. Keep exploring AI and how it fits with your strengths.")

/-! ### The rule list of the specification

The specification describes the classifier as an ordered list of rules of
which the first that matches wins.  The definitions below follow those words;
the theorems compare them with `classifyProfile`. -/

/-- The five profiles of the specification. -/
inductive Profile where
  | AwareButAnxious
  | LowConfidence
  | ConfidentAndAdaptive
  | HumanCenteredLearner
  | CuriousLearner
  deriving DecidableEq, Repr

/-- The display name of a profile. -/
def Profile.name : Profile → String
  | .AwareButAnxious => "Aware but Anxious"
  | .LowConfidence => "Low Confidence"
  | .ConfidentAndAdaptive => "Confident and Adaptive"
  | .HumanCenteredLearner => "Human-Centered Learner"
  | .CuriousLearner => "Curious Learner"

/-- The fixed advice text of a profile. -/
def Profile.advice : Profile → String
  | .AwareButAnxious => "You understand AI well, but you’re concerned about job impact. Focus on adapting and building human-AI collaboration skills."
  | .LowConfidence => "Start small. Try simple, hands-on AI tasks — your confidence will grow quickly through experience."
  | .ConfidentAndAdaptive => "You’re ready to lead. Share what you know and help others understand AI’s potential."
  | .HumanCenteredLearner => "You value creativity and empathy — keep combining those with AI skills for the best of both worlds."
  | .CuriousLearner => "Stay curious. Keep exploring AI and how it fits with your strengths."

/-- The four conditional rules of the specification, by number. -/
inductive RuleId where
  | r1
  | r2
  | r3
  | r4
  deriving DecidableEq, Repr

/-- The condition of a rule on `(confidence, worry, humanSkillsAffinity)`. -/
def RuleId.cond : RuleId → Int → Int → Int → Bool
  | .r1, conf, worry, _ => decide (conf ≥ 4 ∧ worry ≥ 4)
  | .r2, conf, _, _ => decide (conf ≤ 2)
  | .r3, conf, worry, _ => decide (conf ≥ 4 ∧ worry ≤ 2)
  | .r4, _, _, human => decide (human ≥ 4)

/-- The profile a rule assigns. -/
def RuleId.profile : RuleId → Profile
  | .r1 => .AwareButAnxious
  | .r2 => .LowConfidence
  | .r3 => .ConfidentAndAdaptive
  | .r4 => .HumanCenteredLearner

/-- First match wins: the profile of the first rule of `rules` whose condition
holds, and the catch-all `CuriousLearner` (rule 5) when none does. -/
def firstMatch (rules : List RuleId) (conf worry human : Int) : Profile :=
  match rules.find? (fun r => r.cond conf worry human) with
  | some r => r.profile
  | none => .CuriousLearner

/-- A classifier that tests the rules in the given order and returns the name
and advice of the profile found. -/
def classifyWith (rules : List RuleId) (conf worry human : Int) : String × String :=
  let p := firstMatch rules conf worry human
  (p.name, p.advice)

/-- The classifier of the specification: rules 1, 2, 3, 4 in this order, then
the catch-all. -/
def classifySpec (conf worry human : Int) : String × String :=
  classifyWith [.r1, .r2, .r3, .r4] conf worry human

/-! ## Number parsing: `strconv.Atoi` and `mustAtoi`

`mustAtoi` calls `strconv.Atoi` of the Go standard library and drops its
error.  `Atoi`, `ParseInt` and `ParseUint` are embedded here for base 10 on a
64-bit platform (`intSize = 64`), over the bytes of the string as the library
reads them. -/

/-- A Go string as its sequence of bytes. -/
abbrev GoBytes := List UInt8

/-- The bytes of a string literal. -/
def bytes (s : String) : GoBytes := s.toUTF8.data.toList

/-- The two kinds of `*strconv.NumError`. -/
inductive NumError where
  | ErrSyntax
  | ErrRange
  deriving DecidableEq, Repr

/-- Two's complement wrap-around of a 64-bit signed `int`. -/
def wrapInt (x : Int) : Int := (x + 9223372036854775808) % 18446744073709551616 - 9223372036854775808

/-- The constant `maxUint64 = 1<<64 - 1`. -/
def maxUint64 : Nat := 18446744073709551615

/-- The helper `lower(c)` of strconv: `c | ('x' - 'X')`. -/
def lower (c : UInt8) : Nat := c.toNat ||| 32

/-- The digit loop of `strconv.ParseUint(s, 10, 0)`: `n` is the `uint64`
accumulator, `cutoff` is `maxUint64/10 + 1` and `maxVal` is `1<<64 - 1`. -/
def parseUintLoop : List UInt8 → Nat → Nat × Option NumError
  | [], n => (n, none)
  | c :: cs, n =>
    let d : Option Nat :=
      if 48 ≤ c.toNat ∧ c.toNat ≤ 57 then some (c.toNat - 48)
      else if 97 ≤ lower c ∧ lower c ≤ 122 then some (lower c - 97 + 10)
      else none
    match d with
    | none => (0, some .ErrSyntax)
    | some d =>
      if d ≥ 10 then (0, some .ErrSyntax)
      else if n ≥ maxUint64 / 10 + 1 then (maxUint64, some .ErrRange)
      else
        let n10 := (n * 10) % 18446744073709551616
        let n1 := (n10 + d) % 18446744073709551616
        if n1 < n10 ∨ n1 > maxUint64 then (maxUint64, some .ErrRange)
        else parseUintLoop cs n1

/-- The function `strconv.ParseUint(s, 10, 0)`. -/
def ParseUint (s : GoBytes) : Nat × Option NumError :=
  if s = [] then (0, some .ErrSyntax) else parseUintLoop s 0

/-- The function `strconv.ParseInt(s, 10, 0)`. -/
def ParseInt (s : GoBytes) : Int × Option NumError :=
  match s with
  | [] => (0, some .ErrSyntax)
  | c :: rest =>
    let neg : Bool := c.toNat = 45
    let s1 := if c.toNat = 43 then rest else if c.toNat = 45 then rest else c :: rest
    let r := ParseUint s1
    let un := r.1
    let err := r.2
    if err ≠ none ∧ err ≠ some .ErrRange then (0, err)
    else
      let cutoff : Nat := 9223372036854775808
      if neg = false ∧ un ≥ cutoff then ((cutoff : Int) - 1, some .ErrRange)
      else if neg = true ∧ un > cutoff then (-(cutoff : Int), some .ErrRange)
      else
        let n := wrapInt (un : Int)
        if neg then (wrapInt (-n), none) else (n, none)

/-- The digit loop of the fast path of `strconv.Atoi`; `none` is the return
of a syntax error. -/
def atoiFastLoop : List UInt8 → Int → Option Int
  | [], n => some n
  | c :: cs, n =>
    let ch := (c.toNat + 256 - 48) % 256
    if ch > 9 then none else atoiFastLoop cs (wrapInt (n * 10 + (ch : Int)))

/-- The function `strconv.Atoi`: the fast path for strings of 1 to 18 bytes,
`ParseInt(s, 10, 0)` for the others. -/
def Atoi (s : GoBytes) : Int × Option NumError :=
  let sLen := s.length
  if 0 < sLen ∧ sLen < 19 then
    match s with
    | [] => (0, some .ErrSyntax)
    | c :: rest =>
      let signed : Bool := c.toNat = 45 ∨ c.toNat = 43
      let s1 := if signed then rest else c :: rest
      if signed = true ∧ s1.length < 1 then (0, some .ErrSyntax)
      else
        match atoiFastLoop s1 0 with
        | none => (0, some .ErrSyntax)
        | some n => if c.toNat = 45 then (wrapInt (-n), none) else (n, none)
  else
    ParseInt s

/-- The function `mustAtoi` of `main.go`: the value `strconv.Atoi` returns,
its error dropped. -/
def mustAtoi (s : GoBytes) : Int := (Atoi s).1

/-! ### Decimal integers, as the specification speaks of them -/

/-- An ASCII decimal digit. -/
def isDigit (c : UInt8) : Bool := 48 ≤ c.toNat ∧ c.toNat ≤ 57

/-- Whether the string starts with a minus sign. -/
def hasMinus (s : GoBytes) : Bool :=
  match s with
  | [] => false
  | c :: _ => c.toNat = 45

/-- The string without its leading `+` or `-`, if it has one. -/
def unsigned (s : GoBytes) : GoBytes :=
  match s with
  | [] => []
  | c :: rest => if c.toNat = 43 ∨ c.toNat = 45 then rest else c :: rest

/-- The number a run of digits denotes, continuing from `n`. -/
def digitsValueFrom (n : Nat) (ds : List UInt8) : Nat :=
  ds.foldl (fun acc c => acc * 10 + (c.toNat - 48)) n

/-- The number a run of digits denotes. -/
def digitsValue (ds : List UInt8) : Nat := digitsValueFrom 0 ds

/-- A decimal integer: an optional sign followed by one or more digits. -/
def isDecimalInteger (s : GoBytes) : Bool :=
  (unsigned s) ≠ [] ∧ (unsigned s).all isDigit

/-- The integer a decimal integer denotes. -/
def decimalValue (s : GoBytes) : Int :=
  if hasMinus s then -(digitsValue (unsigned s) : Int) else (digitsValue (unsigned s) : Int)

/-! ## The advice fetcher: `groqAdvice`

The process environment, the JSON codec and the HTTP transport are outside the
program; they are the fields of a `World`, and `groqAdvice` is a function of
the world.  Besides its Go result it returns the effects it performed, in
order, so that "no request was built or sent" is a statement about a list. -/

/-- The struct `chatMessage`. -/
structure chatMessage where
  Role : String
  Content : String
  deriving DecidableEq, Repr

/-- The struct `chatRequest`.  `Temperature` is a `float32` in the source; the
literal `0.6` is kept as a rational, it is only handed to the encoder. -/
structure chatRequest where
  Model : String
  Messages : List chatMessage
  MaxTokens : Int
  Temperature : Rat
  deriving DecidableEq, Repr

/-- The struct `chatChoice`; its anonymous `Message` struct has the fields of
`chatMessage`. -/
structure chatChoice where
  Index : Int
  Message : chatMessage
  deriving DecidableEq, Repr

/-- The struct `chatResponse`. -/
structure chatResponse where
  ID : String
  Choices : List chatChoice
  deriving DecidableEq, Repr

/-- A `context.Context`: the context of the inbound request, or a context
derived from a parent by `context.WithTimeout` with a duration in seconds. -/
inductive Context where
  | request
  | withTimeout (parent : Context) (seconds : Nat)
  deriving DecidableEq, Repr

/-- An outbound `*http.Request`: context, method, URL, body and headers in the
order they were set. -/
structure Request where
  ctx : Context
  method : String
  url : String
  body : String
  header : List (String × String)
  deriving DecidableEq, Repr

/-- The method `Header.Set`: replaces the value of the key, or adds it. -/
def headerSet (h : List (String × String)) (key value : String) : List (String × String) :=
  (h.filter (fun kv => kv.1 ≠ key)) ++ [(key, value)]

/-- The method `req.Header.Set`. -/
def Request.setHeader (r : Request) (key value : String) : Request :=
  { r with header := headerSet r.header key value }

/-- An `http.Client` with its `Timeout` in seconds. -/
structure Client where
  Timeout : Nat
  deriving DecidableEq, Repr

/-- An `*http.Response`: status code and body. -/
structure Response where
  StatusCode : Int
  Body : String
  deriving DecidableEq, Repr

/-- What the program reads from and does to its surroundings.

* `env` is the process environment (`none` for an unset variable);
* `jsonEncode` is `json.NewEncoder(buf).Encode(reqBody)`: the bytes written to
  `buf`, or an error;
* `newRequestError` is the error of `http.NewRequestWithContext` for a method
  and a URL, `none` when the request is built;
* `clientDo` is `client.Do(req)`: a response, or a transport error (which
  includes an expired deadline and a cancelled context);
* `jsonDecode` is `json.NewDecoder(resp.Body).Decode(&payload)`: the decoded
  payload, or an error. -/
structure World where
  env : String → Option String
  jsonEncode : chatRequest → Except String String
  newRequestError : String → String → Option String
  clientDo : Client → Request → Except String Response
  jsonDecode : String → Except String chatResponse

/-- The function `os.Getenv`: the value of the variable, empty when unset. -/
def World.Getenv (w : World) (key : String) : String := (w.env key).getD ""

/-- The effects of `groqAdvice` on the world. -/
inductive Effect where
  | encoded (body : chatRequest)
  | built (req : Request)
  | sent (client : Client) (req : Request)
  deriving DecidableEq, Repr

/-- The constant `endpoint` of `groqAdvice`. -/
def endpoint : String := "https://api.groq.com/openai/v1/chat/completions"

/-- The value `prompt` of `groqAdvice`. -/
def prompt (profile : String) : String :=
  "Give concise, positive advice (2–3 sentences) for a high school student whose AI mindset profile is '" ++ profile ++ "'."

/-- The value `reqBody` of `groqAdvice`. -/
def reqBody (profile : String) : chatRequest :=
  { Model := "openai/gpt-oss-20b"
    Messages :=
      [ { Role := "system", Content := "You are a concise, encouraging career coach for students." },
        { Role := "user", Content := prompt profile } ]
    MaxTokens := 200
    Temperature := 6 / 10 }

/-- The request `groqAdvice` hands to `client.Do`: built by
`http.NewRequestWithContext(ctx, http.MethodPost, endpoint, buf)`, then the two
headers set. -/
def outboundRequest (ctx : Context) (apiKey buf : String) : Request :=
  (({ ctx := ctx, method := "POST", url := endpoint, body := buf, header := [] } : Request).setHeader
    "Content-Type" "application/json").setHeader "Authorization" ("Bearer " ++ apiKey)

/-- The client of `groqAdvice`: `&http.Client{Timeout: 20 * time.Second}`. -/
def groqClient : Client := { Timeout := 20 }

/-- The function `groqAdvice` of `main.go`.  The first component is the Go
result `(string, error)`, the second the effects performed. -/
def groqAdvice (w : World) (ctx : Context) (profile : String) :
    (String × Option String) × List Effect :=
  let apiKey := w.Getenv "GROQ_API_KEY"
  if apiKey = "" then
    (("", some "GROQ_API_KEY is not set"), [])
  else
    match w.jsonEncode (reqBody profile) with
    | .error err => (("", some err), [.encoded (reqBody profile)])
    | .ok buf =>
      match w.newRequestError "POST" endpoint with
      | some err => (("", some err), [.encoded (reqBody profile)])
      | none =>
        let req := outboundRequest ctx apiKey buf
        let client := groqClient
        let effects := [Effect.encoded (reqBody profile), .built req, .sent client req]
        match w.clientDo client req with
        | .error err => (("", some err), effects)
        | .ok resp =>
          if resp.StatusCode < 200 ∨ resp.StatusCode ≥ 300 then
            (("", some ("groq api status " ++ toString resp.StatusCode)), effects)
          else
            match w.jsonDecode resp.Body with
            | .error err => (("", some err), effects)
            | .ok payload =>
              match payload.Choices with
              | [] => (("", some "no choices returned"), effects)
              | choice :: _ => ((choice.Message.Content, none), effects)

/-! ## The `/results` handler -/

/-- The part of a `*gin.Context` the handler reads: the POST form (`none` for
a missing field) and the context of the inbound request. -/
structure GinContext where
  form : String → Option GoBytes
  requestContext : Context

/-- The method `c.PostForm`: the value of the field, empty when missing. -/
def GinContext.PostForm (c : GinContext) (key : String) : GoBytes := (c.form key).getD []

/-- The map `gin.H` handed to the template `results.html`. -/
structure ResultsPage where
  Profile : String
  Advice : String
  Conf : Int
  Worry : Int
  Human : Int
  deriving DecidableEq, Repr

/-- What the handler does: the HTTP status and the template it renders, the
data it renders, the lines it logs and the effects of the advice fetch. -/
structure HandlerResult where
  status : Nat
  template : String
  page : ResultsPage
  log : List String
  effects : List Effect

/-- The note appended to the local advice when the fetch fails. -/
def fallbackNote : String := "\n\n(Note: AI advice unavailable, showing local guidance.)"

/-- The handler of `POST /results` in `main`. -/
def resultsHandler (w : World) (c : GinContext) : HandlerResult :=
  let conf := mustAtoi (c.PostForm "confidence")
  let worry := mustAtoi (c.PostForm "worry")
  let human := mustAtoi (c.PostForm "human_skills")
  let cls := classifyProfile conf worry human
  let profile := cls.1
  let localTip := cls.2
  let ctx := Context.withTimeout c.requestContext 15
  let fetched := groqAdvice w ctx profile
  let advice := fetched.1.1
  let err := fetched.1.2
  match err with
  | some e =>
    { status := 200, template := "results.html",
      page := { Profile := profile, Advice := localTip ++ fallbackNote,
                Conf := conf, Worry := worry, Human := human },
      log := ["groq error: " ++ e], effects := fetched.2 }
  | none =>
    { status := 200, template := "results.html",
      page := { Profile := profile, Advice := advice,
                Conf := conf, Worry := worry, Human := human },
      log := [], effects := fetched.2 }

/-! ## Sample worlds and submissions, to instantiate the theorems -/

/-- A world in which the credential is set and the service answers 200 with
two choices; used to instantiate the theorems below. -/
def sampleWorld : World where
  env := fun k => if k = "GROQ_API_KEY" then some "k" else none
  jsonEncode := fun _ => .ok "body"
  newRequestError := fun _ _ => none
  clientDo := fun _ _ => .ok { StatusCode := 200, Body := "reply" }
  jsonDecode := fun _ =>
    .ok { ID := "1",
          Choices := [ { Index := 0, Message := { Role := "assistant", Content := "first" } },
                       { Index := 1, Message := { Role := "assistant", Content := "second" } } ] }

/-- The world `sampleWorld` without the credential. -/
def noKeyWorld : World := { sampleWorld with env := fun _ => none }

/-- A submission with the three fields `5`, `5`, `1`. -/
def sampleForm : GinContext where
  form := fun k =>
    if k = "confidence" then some (bytes "5")
    else if k = "worry" then some (bytes "5")
    else if k = "human_skills" then some (bytes "1")
    else none
  requestContext := .request

/-! ## Theorems: the classifier -/

/-- C1: whenever `conf ≥ 4` and `worry ≥ 4` the classifier returns the name
"Aware but Anxious", whatever `human` is. -/
theorem classifyProfile_aware_but_anxious (conf worry human : Int)
    (hc : conf ≥ 4) (hw : worry ≥ 4) :
    (classifyProfile conf worry human).1 = "Aware but Anxious" := by
  unfold classifyProfile
  rw [if_pos ⟨hc, hw⟩]

/-- Witness of C1 at `(5, 5, 1)`. -/
theorem classifyProfile_aware_but_anxious_witness :
    (5 : Int) ≥ 4 ∧ (5 : Int) ≥ 4 ∧ (classifyProfile 5 5 1).1 = "Aware but Anxious" :=
  ⟨by decide, by decide, classifyProfile_aware_but_anxious 5 5 1 (by decide) (by decide)⟩

/-- C2: whenever `conf ≤ 2` the classifier returns the name "Low Confidence",
for every `worry` and every `human`. -/
theorem classifyProfile_low_confidence (conf worry human : Int) (hc : conf ≤ 2) :
    (classifyProfile conf worry human).1 = "Low Confidence" := by
  unfold classifyProfile
  rw [if_neg (by omega), if_pos hc]

/-- Witness of C2 at `(1, 3, 3)`. -/
theorem classifyProfile_low_confidence_witness :
    (1 : Int) ≤ 2 ∧ (classifyProfile 1 3 3).1 = "Low Confidence" :=
  ⟨by decide, classifyProfile_low_confidence 1 3 3 (by decide)⟩

/-- C3: on every integer triple the classifier returns the name and the
hardcoded advice of the first matching rule of the ordered list 1, 2, 3, 4,
catch-all; the three listed examples evaluate as stated. -/
theorem classifyProfile_first_match (conf worry human : Int) :
    classifyProfile conf worry human = classifySpec conf worry human
      ∧ (∃ p : Profile, p = firstMatch [.r1, .r2, .r3, .r4] conf worry human
          ∧ classifyProfile conf worry human = (p.name, p.advice))
      ∧ classifyProfile 5 1 1
          = (Profile.name .ConfidentAndAdaptive, Profile.advice .ConfidentAndAdaptive)
      ∧ (classifyProfile 5 1 1).1 = "Confident and Adaptive"
      ∧ (classifyProfile 3 3 4).1 = "Human-Centered Learner"
      ∧ (classifyProfile 3 3 2).1 = "Curious Learner" := by
  have key : classifyProfile conf worry human = classifySpec conf worry human := by
    unfold classifyProfile classifySpec classifyWith firstMatch
    by_cases a : 4 ≤ conf <;> by_cases b : 4 ≤ worry <;> by_cases c : conf ≤ 2 <;>
      by_cases d : worry ≤ 2 <;> by_cases e : 4 ≤ human <;>
      first
        | (exfalso; omega)
        | simp [List.find?, RuleId.cond, RuleId.profile, Profile.name, Profile.advice,
            a, b, c, d, e]
  refine ⟨key, ⟨_, rfl, key⟩, by decide, by decide, by decide, by decide⟩

/-- C4: the classifier is total and yields exactly one of the five profile
names; the five names are pairwise distinct and each is attained. -/
theorem classifyProfile_total :
    (∀ conf worry human : Int,
        (classifyProfile conf worry human).1 ∈
          ["Aware but Anxious", "Low Confidence", "Confident and Adaptive",
           "Human-Centered Learner", "Curious Learner"])
      ∧ ["Aware but Anxious", "Low Confidence", "Confident and Adaptive",
          "Human-Centered Learner", "Curious Learner"].Nodup
      ∧ (∃ conf worry human : Int,
          (classifyProfile conf worry human).1 = "Aware but Anxious")
      ∧ (∃ conf worry human : Int,
          (classifyProfile conf worry human).1 = "Low Confidence")
      ∧ (∃ conf worry human : Int,
          (classifyProfile conf worry human).1 = "Confident and Adaptive")
      ∧ (∃ conf worry human : Int,
          (classifyProfile conf worry human).1 = "Human-Centered Learner")
      ∧ (∃ conf worry human : Int,
          (classifyProfile conf worry human).1 = "Curious Learner") := by
  refine ⟨?_, by decide, ⟨5, 5, 1, by decide⟩, ⟨1, 3, 3, by decide⟩, ⟨5, 1, 1, by decide⟩,
    ⟨3, 3, 4, by decide⟩, ⟨3, 3, 2, by decide⟩⟩
  intro conf worry human
  unfold classifyProfile
  split_ifs <;> simp

/-- The six orders of rules 1, 2, 3: every list that is a permutation of them
is one of the six listed. -/
theorem order_cases (order : List RuleId) (hperm : order.Perm [.r1, .r2, .r3]) :
    order = [.r1, .r2, .r3] ∨ order = [.r1, .r3, .r2] ∨ order = [.r2, .r1, .r3]
      ∨ order = [.r2, .r3, .r1] ∨ order = [.r3, .r1, .r2] ∨ order = [.r3, .r2, .r1] := by
  have hlen : order.length = 3 := by simpa using hperm.length_eq
  have h1 : RuleId.r1 ∈ order := hperm.mem_iff.2 (by simp)
  have h2 : RuleId.r2 ∈ order := hperm.mem_iff.2 (by simp)
  have h3 : RuleId.r3 ∈ order := hperm.mem_iff.2 (by simp)
  match order, hlen, h1, h2, h3 with
  | [a, b, c], _, h1, h2, h3 =>
    cases a <;> cases b <;> cases c <;> simp_all

/-- C10: the conditions of rules 1, 2, 3 are pairwise exclusive, so testing
them in any of their six orders before rule 4 and the catch-all gives the
result of `classifyProfile`; rules 4 and 5 decide exactly when `conf = 3` or
(`conf ≥ 4` and `worry = 3`), and moving rule 4 ahead does change the result. -/
theorem classifyProfile_rule_order (order : List RuleId)
    (hperm : order.Perm [.r1, .r2, .r3]) (conf worry human : Int) :
    ¬ (RuleId.cond .r1 conf worry human = true ∧ RuleId.cond .r2 conf worry human = true)
      ∧ ¬ (RuleId.cond .r1 conf worry human = true ∧ RuleId.cond .r3 conf worry human = true)
      ∧ ¬ (RuleId.cond .r2 conf worry human = true ∧ RuleId.cond .r3 conf worry human = true)
      ∧ classifyWith (order ++ [.r4]) conf worry human = classifyProfile conf worry human
      ∧ ((RuleId.cond .r1 conf worry human = false ∧ RuleId.cond .r2 conf worry human = false
            ∧ RuleId.cond .r3 conf worry human = false)
          ↔ (conf = 3 ∨ (conf ≥ 4 ∧ worry = 3)))
      ∧ (((classifyProfile conf worry human).1 = "Human-Centered Learner"
            ∨ (classifyProfile conf worry human).1 = "Curious Learner")
          ↔ (conf = 3 ∨ (conf ≥ 4 ∧ worry = 3)))
      ∧ classifyWith [.r4, .r1, .r2, .r3] 5 5 5 ≠ classifyProfile 5 5 5 := by
  refine ⟨?_, ?_, ?_, ?_, ?_, ?_, by decide⟩
  · simp only [RuleId.cond, decide_eq_true_eq]; omega
  · simp only [RuleId.cond, decide_eq_true_eq]; omega
  · simp only [RuleId.cond, decide_eq_true_eq]; omega
  · unfold classifyProfile classifyWith firstMatch
    rcases order_cases order hperm with h | h | h | h | h | h <;> subst h <;>
      by_cases a : 4 ≤ conf <;> by_cases b : 4 ≤ worry <;> by_cases c : conf ≤ 2 <;>
      by_cases d : worry ≤ 2 <;> by_cases e : 4 ≤ human <;>
      first
        | (exfalso; omega)
        | simp [List.find?, RuleId.cond, RuleId.profile, Profile.name, Profile.advice,
            a, b, c, d, e]
  · simp only [RuleId.cond, decide_eq_false_iff_not]; omega
  · unfold classifyProfile
    by_cases a : 4 ≤ conf <;> by_cases b : 4 ≤ worry <;> by_cases c : conf ≤ 2 <;>
      by_cases d : worry ≤ 2 <;> by_cases e : 4 ≤ human <;>
      first
        | (exfalso; omega)
        | (simp [a, b, c, d, e]; try omega)

/-- Witness of C10 at the order 3, 1, 2 and the triple `(4, 3, 5)`. -/
theorem classifyProfile_rule_order_witness :
    classifyWith ([.r3, .r1, .r2] ++ [.r4]) 4 3 5 = classifyProfile 4 3 5 :=
  (classifyProfile_rule_order [.r3, .r1, .r2]
    (by decide) 4 3 5).2.2.2.1

/-! ## Theorems: number parsing -/

theorem parseUintLoop_cons_digit (c : UInt8) (cs : List UInt8) (n : Nat)
    (h1 : 48 ≤ c.toNat) (h2 : c.toNat ≤ 57) :
    parseUintLoop (c :: cs) n =
      if n ≥ 1844674407370955162 then (maxUint64, some .ErrRange)
      else if n * 10 + (c.toNat - 48) ≥ 18446744073709551616 then (maxUint64, some .ErrRange)
      else parseUintLoop cs (n * 10 + (c.toNat - 48)) := by
  rw [parseUintLoop]
  simp only [h1, h2, and_self, if_true]
  have hd : ¬ (c.toNat - 48 ≥ 10) := by omega
  simp only [hd, if_false, maxUint64]
  by_cases hcut : n ≥ 1844674407370955162
  · rw [if_pos (by omega), if_pos hcut]
  · rw [if_neg (by omega), if_neg hcut]
    by_cases hov : n * 10 + (c.toNat - 48) ≥ 18446744073709551616
    · rw [if_pos hov, if_pos (by omega)]
    · rw [if_neg hov, if_neg (by omega)]
      congr 1
      omega

theorem parseUintLoop_cons_nondigit (c : UInt8) (cs : List UInt8) (n : Nat)
    (h : ¬ (48 ≤ c.toNat ∧ c.toNat ≤ 57)) :
    parseUintLoop (c :: cs) n = (0, some .ErrSyntax) := by
  rw [parseUintLoop]
  simp only [h, if_false]
  by_cases hl : 97 ≤ lower c ∧ lower c ≤ 122
  · simp only [hl, and_self, if_true]
    rw [if_pos (by omega)]
  · simp only [hl, if_false]

theorem isDigit_iff (c : UInt8) : isDigit c = true ↔ (48 ≤ c.toNat ∧ c.toNat ≤ 57) := by
  simp [isDigit]

theorem digitsValueFrom_cons (n : Nat) (c : UInt8) (cs : List UInt8) :
    digitsValueFrom n (c :: cs) = digitsValueFrom (n * 10 + (c.toNat - 48)) cs := rfl

theorem le_digitsValueFrom (ds : List UInt8) : ∀ n, n ≤ digitsValueFrom n ds := by
  induction ds with
  | nil => intro n; exact Nat.le_refl n
  | cons c cs ih =>
    intro n
    rw [digitsValueFrom_cons]
    have := ih (n * 10 + (c.toNat - 48))
    omega

theorem parseUintLoop_eq (ds : List UInt8) : ∀ n, n ≤ maxUint64 →
    parseUintLoop ds n =
      if digitsValueFrom n (ds.takeWhile isDigit) > maxUint64 then (maxUint64, some .ErrRange)
      else if ds.all isDigit then (digitsValueFrom n ds, none)
      else (0, some .ErrSyntax) := by
  induction ds with
  | nil =>
    intro n hn
    have hle : ¬ (n > maxUint64) := by omega
    simp [parseUintLoop, digitsValueFrom, hle]
  | cons c cs ih =>
    intro n hn
    by_cases hd : isDigit c = true
    · have hc := (isDigit_iff c).1 hd
      rw [parseUintLoop_cons_digit c cs n hc.1 hc.2]
      have htw : (c :: cs).takeWhile isDigit = c :: cs.takeWhile isDigit := by
        simp [List.takeWhile, hd]
      have hall : (c :: cs).all isDigit = cs.all isDigit := by simp [hd]
      rw [htw, hall, digitsValueFrom_cons, digitsValueFrom_cons]
      have hmono := le_digitsValueFrom (cs.takeWhile isDigit) (n * 10 + (c.toNat - 48))
      unfold maxUint64 at hn hmono ⊢
      by_cases hcut : n ≥ 1844674407370955162
      · rw [if_pos hcut, if_pos (by omega)]
      · rw [if_neg hcut]
        by_cases hov : n * 10 + (c.toNat - 48) ≥ 18446744073709551616
        · rw [if_pos hov, if_pos (by omega)]
        · rw [if_neg hov]
          have := ih (n * 10 + (c.toNat - 48)) (by unfold maxUint64; omega)
          unfold maxUint64 at this
          exact this
    · have hc : ¬ (48 ≤ c.toNat ∧ c.toNat ≤ 57) := fun h => hd ((isDigit_iff c).2 h)
      rw [parseUintLoop_cons_nondigit c cs n hc]
      have htw : (c :: cs).takeWhile isDigit = [] := by simp [List.takeWhile, hd]
      have hall : (c :: cs).all isDigit = false := by simp [hd]
      rw [htw, hall]
      have hle : ¬ (n > maxUint64) := by omega
      simp [digitsValueFrom, hle]

theorem atoiFastLoop_nondigit (ds : List UInt8) : ∀ n : Int,
    ds.all isDigit = false → atoiFastLoop ds n = none := by
  induction ds with
  | nil => intro n h; simp at h
  | cons c cs ih =>
    intro n h
    rw [atoiFastLoop]
    have hlt := UInt8.toNat_lt c
    by_cases hd : isDigit c = true
    · have hc := (isDigit_iff c).1 hd
      have hcs : cs.all isDigit = false := by simpa [hd] using h
      rw [if_neg (by omega)]
      exact ih _ hcs
    · have hc : ¬ (48 ≤ c.toNat ∧ c.toNat ≤ 57) := fun h => hd ((isDigit_iff c).2 h)
      rw [if_pos (by omega)]

theorem wrapInt_of_range (x : Int) (h1 : -9223372036854775808 ≤ x)
    (h2 : x ≤ 9223372036854775807) : wrapInt x = x := by
  unfold wrapInt
  omega

theorem atoiFastLoop_digits (ds : List UInt8) : ∀ n : Nat,
    ds.all isDigit = true → digitsValueFrom n ds ≤ 9223372036854775807 →
    atoiFastLoop ds (n : Int) = some (digitsValueFrom n ds : Int) := by
  induction ds with
  | nil => intro n _ _; rfl
  | cons c cs ih =>
    intro n h hv
    rw [atoiFastLoop]
    have hlt := UInt8.toNat_lt c
    have hd : isDigit c = true := by simp at h; exact h.1
    have hcs : cs.all isDigit = true := by simp at h; simpa using h.2
    have hc := (isDigit_iff c).1 hd
    rw [digitsValueFrom_cons] at hv ⊢
    have hmono := le_digitsValueFrom cs (n * 10 + (c.toNat - 48))
    rw [if_neg (by omega)]
    have e : (c.toNat + 256 - 48) % 256 = c.toNat - 48 := by omega
    rw [e, wrapInt_of_range _ (by omega) (by omega)]
    have := ih (n * 10 + (c.toNat - 48)) hcs hv
    rw [← this]
    congr 1

theorem digitsValueFrom_lt (ds : List UInt8) : ∀ n : Nat,
    ds.all isDigit = true → digitsValueFrom n ds < (n + 1) * 10 ^ ds.length := by
  induction ds with
  | nil => intro n _; simp [digitsValueFrom]
  | cons c cs ih =>
    intro n h
    have hd : isDigit c = true := by simp at h; exact h.1
    have hcs : cs.all isDigit = true := by simp at h; simpa using h.2
    have hc := (isDigit_iff c).1 hd
    rw [digitsValueFrom_cons]
    have := ih (n * 10 + (c.toNat - 48)) hcs
    calc digitsValueFrom (n * 10 + (c.toNat - 48)) cs
        < (n * 10 + (c.toNat - 48) + 1) * 10 ^ cs.length := this
      _ ≤ ((n + 1) * 10) * 10 ^ cs.length := Nat.mul_le_mul_right _ (by omega)
      _ = (n + 1) * 10 ^ (c :: cs).length := by
          rw [List.length_cons, pow_succ]; ring

theorem takeWhile_digits_lt (l : List UInt8) (k : Nat) (h : l.length ≤ k) :
    digitsValue (l.takeWhile isDigit) < 10 ^ k := by
  have hall : (l.takeWhile isDigit).all isDigit = true := by
    rw [List.all_eq_true]
    intro x hx
    exact List.mem_takeWhile_imp hx
  have h1 := digitsValueFrom_lt (l.takeWhile isDigit) 0 hall
  have h2 : (l.takeWhile isDigit).length ≤ k :=
    Nat.le_trans (List.takeWhile_sublist isDigit).length_le h
  have h3 : 10 ^ (l.takeWhile isDigit).length ≤ 10 ^ k :=
    Nat.pow_le_pow_right (by decide) h2
  unfold digitsValue
  omega

theorem takeWhile_of_all (l : List UInt8) (h : l.all isDigit = true) :
    l.takeWhile isDigit = l := by
  rw [List.takeWhile_eq_self_iff]
  intro x hx
  exact (List.all_eq_true.1 h) x hx

/-- The fast path of `Atoi`, in terms of the unsigned part of the string. -/
theorem Atoi_fast (s : GoBytes) (h0 : 0 < s.length) (h19 : s.length < 19) :
    Atoi s =
      if unsigned s = [] then (0, some .ErrSyntax)
      else match atoiFastLoop (unsigned s) 0 with
        | none => (0, some .ErrSyntax)
        | some n => if hasMinus s = true then (wrapInt (-n), none) else (n, none) := by
  match s, h0, h19 with
  | c :: rest, h0, h19 =>
    unfold Atoi
    simp only [h0, h19, and_self, if_true, unsigned, hasMinus]
    by_cases hm : c.toNat = 45
    · have hp : ¬ c.toNat = 43 := by omega
      cases rest with
      | nil => simp [hm]
      | cons d ds => simp [hm]
    · by_cases hp : c.toNat = 43
      · cases rest with
        | nil => simp [hm, hp]
        | cons d ds => simp [hm, hp]
      · simp [hm, hp]

theorem unsigned_length_le (s : GoBytes) : (unsigned s).length ≤ s.length := by
  cases s with
  | nil => simp [unsigned]
  | cons c rest =>
    simp only [unsigned]
    split_ifs <;> simp

/-- The slow path of `Atoi`, in terms of the unsigned part of the string. -/
theorem ParseInt_eq (s : GoBytes) :
    ParseInt s =
      if unsigned s = [] then (0, some .ErrSyntax)
      else if (parseUintLoop (unsigned s) 0).2 = some .ErrSyntax then (0, some .ErrSyntax)
      else if hasMinus s = false ∧ (parseUintLoop (unsigned s) 0).1 ≥ 9223372036854775808 then
        (9223372036854775807, some .ErrRange)
      else if hasMinus s = true ∧ (parseUintLoop (unsigned s) 0).1 > 9223372036854775808 then
        (-9223372036854775808, some .ErrRange)
      else if hasMinus s = true then
        (wrapInt (-wrapInt ((parseUintLoop (unsigned s) 0).1 : Int)), none)
      else (wrapInt ((parseUintLoop (unsigned s) 0).1 : Int), none) := by
  have herr : ∀ e : Option NumError,
      (e ≠ none ∧ e ≠ some NumError.ErrRange) ↔ e = some NumError.ErrSyntax := by
    intro e
    rcases e with _ | e
    · simp
    · cases e <;> simp
  cases s with
  | nil => simp [ParseInt, unsigned]
  | cons c rest =>
    unfold ParseInt
    simp only [herr, unsigned, hasMinus, ParseUint]
    by_cases hm : c.toNat = 45
    · have hp : ¬ c.toNat = 43 := by omega
      by_cases hr : rest = []
      · simp [hm, hr]
      · simp [hm, hr]
        split_ifs <;> simp_all
    · by_cases hp : c.toNat = 43
      · by_cases hr : rest = []
        · simp [hp, hr]
        · simp [hp, hr]
          split_ifs <;> simp_all
      · simp [hm, hp]
        split_ifs <;> simp_all

/-- What `strconv.Atoi` returns, in terms of the shape of the string: the
clamped bound with a range error once the leading digits exceed `maxUint64`,
zero with a syntax error for a string that is not a decimal integer, the
clamped bound with a range error for a decimal integer outside the `int`
range, and the value otherwise. -/
theorem Atoi_eq (s : GoBytes) :
    Atoi s =
      if digitsValue ((unsigned s).takeWhile isDigit) > maxUint64 then
        (if hasMinus s = true then -9223372036854775808 else 9223372036854775807,
          some .ErrRange)
      else if isDecimalInteger s = false then (0, some .ErrSyntax)
      else if hasMinus s = false ∧ digitsValue (unsigned s) ≥ 9223372036854775808 then
        (9223372036854775807, some .ErrRange)
      else if hasMinus s = true ∧ digitsValue (unsigned s) > 9223372036854775808 then
        (-9223372036854775808, some .ErrRange)
      else (decimalValue s, none) := by
  by_cases hfast : 0 < s.length ∧ s.length < 19
  · rw [Atoi_fast s hfast.1 hfast.2]
    have hlen : (unsigned s).length ≤ 18 := by
      have := unsigned_length_le s
      omega
    have hv := takeWhile_digits_lt (unsigned s) 18 hlen
    have hnb : ¬ (digitsValue ((unsigned s).takeWhile isDigit) > maxUint64) := by
      unfold maxUint64; omega
    rw [if_neg hnb]
    by_cases hu : unsigned s = []
    · simp [hu, isDecimalInteger]
    · rw [if_neg hu]
      by_cases hall : (unsigned s).all isDigit = true
      · rw [takeWhile_of_all _ hall] at hv
        have hloop := atoiFastLoop_digits (unsigned s) 0 hall (by
          unfold digitsValue at hv; omega)
        simp only [Nat.cast_zero] at hloop
        rw [hloop]
        have hdec : isDecimalInteger s = true := by simp [isDecimalInteger, hu, hall]
        have h1 : ¬ (isDecimalInteger s = false) := by simp [hdec]
        have h2 : ¬ (hasMinus s = false ∧ digitsValue (unsigned s) ≥ 9223372036854775808) := by
          omega
        have h3 : ¬ (hasMinus s = true ∧ digitsValue (unsigned s) > 9223372036854775808) := by
          omega
        rw [if_neg h1, if_neg h2, if_neg h3]
        unfold digitsValue at hv
        unfold decimalValue digitsValue
        by_cases hm : hasMinus s = true
        · simp only [hm, if_true]
          rw [wrapInt_of_range _ (by omega) (by omega)]
        · simp [hm]
      · have hall2 : (unsigned s).all isDigit = false := by simpa using hall
        rw [atoiFastLoop_nondigit _ 0 hall2]
        have hdec : isDecimalInteger s = false := by simp [isDecimalInteger, hu, hall2]
        simp [hdec]
  · have hA : Atoi s = ParseInt s := by
      unfold Atoi
      simp only [hfast, if_false]
    rw [hA, ParseInt_eq]
    by_cases hu : unsigned s = []
    · simp [hu, isDecimalInteger, digitsValue, digitsValueFrom, maxUint64]
    · rw [if_neg hu, parseUintLoop_eq (unsigned s) 0 (by unfold maxUint64; omega)]
      unfold digitsValue
      by_cases hbig : digitsValueFrom 0 ((unsigned s).takeWhile isDigit) > maxUint64
      · simp only [hbig, if_true]
        unfold maxUint64
        by_cases hm : hasMinus s = true
        · simp [hm]
        · simp [hm]
      · simp only [hbig, if_false]
        by_cases hall : (unsigned s).all isDigit = true
        · have hdec : isDecimalInteger s = true := by simp [isDecimalInteger, hu, hall]
          rw [takeWhile_of_all _ hall] at hbig
          unfold maxUint64 at hbig
          simp only [hall, if_true, hdec]
          unfold decimalValue digitsValue
          by_cases hm : hasMinus s = true
          · simp only [hm]
            by_cases hgt : digitsValueFrom 0 (unsigned s) > 9223372036854775808
            · simp [hgt]
            · have e : wrapInt (-wrapInt ((digitsValueFrom 0 (unsigned s) : Nat) : Int))
                  = -((digitsValueFrom 0 (unsigned s) : Nat) : Int) := by
                unfold wrapInt; omega
              simp [hgt, e]
          · simp only [hm]
            by_cases hge : digitsValueFrom 0 (unsigned s) ≥ 9223372036854775808
            · simp [hge]
            · have e : wrapInt ((digitsValueFrom 0 (unsigned s) : Nat) : Int)
                  = ((digitsValueFrom 0 (unsigned s) : Nat) : Int) := by
                unfold wrapInt; omega
              simp [hge, e]
        · have hall2 : (unsigned s).all isDigit = false := by simpa using hall
          have hdec : isDecimalInteger s = false := by simp [isDecimalInteger, hu, hall2]
          simp [hall2, hdec]

/-- C8 as stated fails: a form value that is not a decimal integer and that the
parser rejects makes `mustAtoi` return `2^63 - 1`, not `0`; and a decimal
integer outside the `int` range is not returned as that integer. -/
theorem mustAtoi_rejected_not_zero :
    isDecimalInteger (bytes "99999999999999999999x") = false
      ∧ (Atoi (bytes "99999999999999999999x")).2 = some .ErrRange
      ∧ mustAtoi (bytes "99999999999999999999x") = 9223372036854775807
      ∧ mustAtoi (bytes "99999999999999999999x") ≠ 0
      ∧ isDecimalInteger (bytes "9223372036854775808") = true
      ∧ decimalValue (bytes "9223372036854775808") = 9223372036854775808
      ∧ mustAtoi (bytes "9223372036854775808") ≠ decimalValue (bytes "9223372036854775808") := by
  decide

/-- C8, amended: `mustAtoi` returns `0` for the empty string and for every
value `strconv.Atoi` rejects with a syntax error, which is every value that is
not a decimal integer unless its leading digits already exceed `2^64 - 1`; it
returns the integer for every decimal integer in the 64-bit `int` range; a
decimal integer above `2^63 - 1` is rejected with a range error and gives
`2^63 - 1`, one below `-2^63` gives `-2^63`, and any string whose leading
digits exceed `2^64 - 1` is rejected with a range error and gives the bound on
the side of its sign. -/
theorem mustAtoi_value (s : GoBytes) :
    mustAtoi [] = 0
      ∧ ((Atoi s).2 = some .ErrSyntax → mustAtoi s = 0)
      ∧ (isDecimalInteger s = false →
          digitsValue ((unsigned s).takeWhile isDigit) ≤ 18446744073709551615 →
          (Atoi s).2 = some .ErrSyntax ∧ mustAtoi s = 0)
      ∧ (isDecimalInteger s = true → -9223372036854775808 ≤ decimalValue s →
          decimalValue s ≤ 9223372036854775807 →
          (Atoi s).2 = none ∧ mustAtoi s = decimalValue s)
      ∧ ((Atoi s).2 = some .ErrRange →
          mustAtoi s = if hasMinus s = true then -9223372036854775808 else 9223372036854775807)
      ∧ (isDecimalInteger s = true → decimalValue s > 9223372036854775807 →
          (Atoi s).2 = some .ErrRange ∧ mustAtoi s = 9223372036854775807)
      ∧ (isDecimalInteger s = true → decimalValue s < -9223372036854775808 →
          (Atoi s).2 = some .ErrRange ∧ mustAtoi s = -9223372036854775808)
      ∧ (digitsValue ((unsigned s).takeWhile isDigit) > 18446744073709551615 →
          (Atoi s).2 = some .ErrRange
            ∧ mustAtoi s
              = if hasMinus s = true then -9223372036854775808 else 9223372036854775807) := by
  have h := Atoi_eq s
  unfold mustAtoi
  refine ⟨by decide, ?_, ?_, ?_, ?_, ?_, ?_, ?_⟩
  · intro he
    rw [h] at he ⊢
    split_ifs at he ⊢ <;> simp_all
  · intro hdec hv
    rw [h]
    have hnb : ¬ (digitsValue ((unsigned s).takeWhile isDigit) > maxUint64) := by
      unfold maxUint64; omega
    rw [if_neg hnb, if_pos hdec]
    exact ⟨rfl, rfl⟩
  · intro hdec hlo hhi
    have hall : (unsigned s).all isDigit = true := by
      simp only [isDecimalInteger, decide_eq_true_eq] at hdec
      exact hdec.2
    rw [h, takeWhile_of_all _ hall]
    unfold decimalValue at hlo hhi
    have hnb : ¬ (digitsValue (unsigned s) > maxUint64) := by
      unfold maxUint64
      by_cases hm : hasMinus s = true
      · simp only [hm, if_true] at hlo; omega
      · simp only [hm] at hhi; simp at hhi; omega
    have h1 : ¬ (isDecimalInteger s = false) := by simp [hdec]
    have h2 : ¬ (hasMinus s = false ∧ digitsValue (unsigned s) ≥ 9223372036854775808) := by
      rintro ⟨hm, hge⟩
      simp [hm] at hhi
      omega
    have h3 : ¬ (hasMinus s = true ∧ digitsValue (unsigned s) > 9223372036854775808) := by
      rintro ⟨hm, hgt⟩
      simp [hm] at hlo
      omega
    rw [if_neg hnb, if_neg h1, if_neg h2, if_neg h3]
    exact ⟨rfl, rfl⟩
  · intro he
    rw [h] at he ⊢
    split_ifs at he ⊢ <;> simp_all
  · intro hdec hgt
    have hall : (unsigned s).all isDigit = true := by
      simp only [isDecimalInteger, decide_eq_true_eq] at hdec
      exact hdec.2
    rw [h, takeWhile_of_all _ hall]
    unfold decimalValue at hgt
    have hm : hasMinus s = false := by
      by_cases hm : hasMinus s = true
      · simp only [hm, if_true] at hgt; omega
      · simpa using hm
    simp only [hm] at hgt
    simp at hgt
    have h1 : ¬ (isDecimalInteger s = false) := by simp [hdec]
    have h2 : hasMinus s = false ∧ digitsValue (unsigned s) ≥ 9223372036854775808 :=
      ⟨hm, by omega⟩
    by_cases hbig : digitsValue (unsigned s) > maxUint64
    · rw [if_pos hbig]
      simp [hm]
    · rw [if_neg hbig, if_neg h1, if_pos h2]
      exact ⟨rfl, rfl⟩
  · intro hdec hlt
    have hall : (unsigned s).all isDigit = true := by
      simp only [isDecimalInteger, decide_eq_true_eq] at hdec
      exact hdec.2
    rw [h, takeWhile_of_all _ hall]
    unfold decimalValue at hlt
    have hm : hasMinus s = true := by
      by_cases hm : hasMinus s = true
      · exact hm
      · simp only [hm] at hlt; simp at hlt; omega
    simp only [hm, if_true] at hlt
    have h1 : ¬ (isDecimalInteger s = false) := by simp [hdec]
    have h2 : ¬ (hasMinus s = false ∧ digitsValue (unsigned s) ≥ 9223372036854775808) := by
      simp [hm]
    have h3 : hasMinus s = true ∧ digitsValue (unsigned s) > 9223372036854775808 :=
      ⟨hm, by omega⟩
    by_cases hbig : digitsValue (unsigned s) > maxUint64
    · rw [if_pos hbig]
      simp [hm]
    · rw [if_neg hbig, if_neg h1, if_neg h2, if_pos h3]
      exact ⟨rfl, rfl⟩
  · intro hbig
    have hbig2 : digitsValue ((unsigned s).takeWhile isDigit) > maxUint64 := by
      unfold maxUint64; omega
    rw [h, if_pos hbig2]
    exact ⟨rfl, rfl⟩

/-- Witness of the amended C8: the form value `-42` is returned as `-42`;
`9223372036854775808` and `-9223372036854775809` are rejected with a range
error and give the bounds `2^63 - 1` and `-2^63`; `99999999999999999999x`,
whose leading digits exceed `2^64 - 1`, is rejected with a range error and
gives `2^63 - 1`; `12a` is rejected with a syntax error and gives `0`. -/
theorem mustAtoi_value_witness :
    ((Atoi (bytes "-42")).2 = none ∧ mustAtoi (bytes "-42") = decimalValue (bytes "-42"))
      ∧ ((Atoi (bytes "9223372036854775808")).2 = some .ErrRange
          ∧ mustAtoi (bytes "9223372036854775808") = 9223372036854775807)
      ∧ ((Atoi (bytes "-9223372036854775809")).2 = some .ErrRange
          ∧ mustAtoi (bytes "-9223372036854775809") = -9223372036854775808)
      ∧ ((Atoi (bytes "99999999999999999999x")).2 = some .ErrRange
          ∧ mustAtoi (bytes "99999999999999999999x")
            = if hasMinus (bytes "99999999999999999999x") = true then -9223372036854775808
              else 9223372036854775807)
      ∧ ((Atoi (bytes "12a")).2 = some .ErrSyntax ∧ mustAtoi (bytes "12a") = 0) :=
  ⟨(mustAtoi_value (bytes "-42")).2.2.2.1 (by decide) (by decide) (by decide),
   (mustAtoi_value (bytes "9223372036854775808")).2.2.2.2.2.1 (by decide) (by decide),
   (mustAtoi_value (bytes "-9223372036854775809")).2.2.2.2.2.2.1 (by decide) (by decide),
   (mustAtoi_value (bytes "99999999999999999999x")).2.2.2.2.2.2.2 (by decide),
   (mustAtoi_value (bytes "12a")).2.2.1 (by decide) (by decide)⟩

/-! ## Theorems: the advice fetcher and the handler -/

/-- With the credential unset or empty `groqAdvice` fails at once. -/
theorem groqAdvice_no_key (w : World) (ctx : Context) (profile : String)
    (hkey : w.env "GROQ_API_KEY" = none ∨ w.env "GROQ_API_KEY" = some "") :
    groqAdvice w ctx profile = (("", some "GROQ_API_KEY is not set"), []) := by
  have hget : w.Getenv "GROQ_API_KEY" = "" := by
    rcases hkey with h | h <;> simp [World.Getenv, h]
  unfold groqAdvice
  simp [hget]

/-- With a transport error `groqAdvice` fails with that error. -/
theorem groqAdvice_transport_error (w : World) (ctx : Context) (profile key buf e : String)
    (hkey : w.env "GROQ_API_KEY" = some key) (hne : key ≠ "")
    (henc : w.jsonEncode (reqBody profile) = .ok buf)
    (hnew : w.newRequestError "POST" endpoint = none)
    (hdo : w.clientDo groqClient (outboundRequest ctx key buf) = .error e) :
    (groqAdvice w ctx profile).1 = ("", some e) := by
  have hget : w.Getenv "GROQ_API_KEY" = key := by simp [World.Getenv, hkey]
  unfold groqAdvice
  simp only [hget, hne, if_false, henc, hnew, hdo]

/-- C5: with the credential unset or empty, `groqAdvice` returns the empty text
with an error and performs no effect at all: nothing is encoded, built or
sent, whatever the profile and whatever the rest of the world does. -/
theorem groqAdvice_missing_key (w : World) (ctx : Context) (profile : String)
    (hkey : w.env "GROQ_API_KEY" = none ∨ w.env "GROQ_API_KEY" = some "") :
    (groqAdvice w ctx profile).1.1 = ""
      ∧ (groqAdvice w ctx profile).1.2 = some "GROQ_API_KEY is not set"
      ∧ (groqAdvice w ctx profile).2 = [] := by
  rw [groqAdvice_no_key w ctx profile hkey]
  exact ⟨rfl, rfl, rfl⟩

/-- Witness of C5 in a world without the credential. -/
theorem groqAdvice_missing_key_witness :
    (groqAdvice noKeyWorld .request "Curious Learner").1.1 = ""
      ∧ (groqAdvice noKeyWorld .request "Curious Learner").1.2 = some "GROQ_API_KEY is not set"
      ∧ (groqAdvice noKeyWorld .request "Curious Learner").2 = [] :=
  groqAdvice_missing_key noKeyWorld .request "Curious Learner" (Or.inl rfl)

/-- What `groqAdvice` returns once the transport has delivered a response. -/
theorem groqAdvice_after_response (w : World) (ctx : Context) (profile key buf : String)
    (resp : Response)
    (hkey : w.env "GROQ_API_KEY" = some key) (hne : key ≠ "")
    (henc : w.jsonEncode (reqBody profile) = .ok buf)
    (hnew : w.newRequestError "POST" endpoint = none)
    (hdo : w.clientDo groqClient (outboundRequest ctx key buf) = .ok resp) :
    (groqAdvice w ctx profile).1 =
      if resp.StatusCode < 200 ∨ resp.StatusCode ≥ 300 then
        ("", some ("groq api status " ++ toString resp.StatusCode))
      else
        match w.jsonDecode resp.Body with
        | .error err => ("", some err)
        | .ok payload =>
          match payload.Choices with
          | [] => ("", some "no choices returned")
          | choice :: _ => (choice.Message.Content, none) := by
  have hget : w.Getenv "GROQ_API_KEY" = key := by simp [World.Getenv, hkey]
  unfold groqAdvice
  simp only [hget, hne, if_false, henc, hnew, hdo]
  split_ifs
  · rfl
  · cases w.jsonDecode resp.Body with
    | error e => rfl
    | ok payload =>
      cases hch : payload.Choices with
      | nil => simp [hch]
      | cons c cs => simp [hch]

/-- C6: with a non-empty credential and a transport that delivers a response,
`groqAdvice` returns an error with empty text when the status is outside
200..299, when the body does not decode, or when the decoded choice list is
empty; in every other case it returns the content of the first choice and no
error. -/
theorem groqAdvice_response (w : World) (ctx : Context) (profile key buf : String)
    (resp : Response)
    (hkey : w.env "GROQ_API_KEY" = some key) (hne : key ≠ "")
    (henc : w.jsonEncode (reqBody profile) = .ok buf)
    (hnew : w.newRequestError "POST" endpoint = none)
    (hdo : w.clientDo groqClient (outboundRequest ctx key buf) = .ok resp) :
    ((resp.StatusCode < 200 ∨ resp.StatusCode ≥ 300) →
        (groqAdvice w ctx profile).1.1 = "" ∧ (groqAdvice w ctx profile).1.2 ≠ none)
      ∧ (∀ e, w.jsonDecode resp.Body = .error e →
        (groqAdvice w ctx profile).1.1 = "" ∧ (groqAdvice w ctx profile).1.2 ≠ none)
      ∧ (∀ payload, w.jsonDecode resp.Body = .ok payload → payload.Choices = [] →
        (groqAdvice w ctx profile).1.1 = "" ∧ (groqAdvice w ctx profile).1.2 ≠ none)
      ∧ (∀ payload choice rest, 200 ≤ resp.StatusCode → resp.StatusCode < 300 →
        w.jsonDecode resp.Body = .ok payload → payload.Choices = choice :: rest →
        (groqAdvice w ctx profile).1 = (choice.Message.Content, none)) := by
  have h := groqAdvice_after_response w ctx profile key buf resp hkey hne henc hnew hdo
  rw [h]
  refine ⟨?_, ?_, ?_, ?_⟩
  · intro hs
    rw [if_pos hs]
    simp
  · intro e he
    split_ifs
    · simp
    · simp [he]
  · intro payload hp hc
    split_ifs
    · simp
    · simp [hp, hc]
  · intro payload choice rest h1 h2 hp hc
    rw [if_neg (by omega)]
    simp [hp, hc]

/-- Witness of C6: in `sampleWorld` the service answers 200 with two choices
and `groqAdvice` returns the content of the first. -/
theorem groqAdvice_response_witness :
    (groqAdvice sampleWorld .request "Curious Learner").1 = ("first", none) :=
  (groqAdvice_response sampleWorld .request "Curious Learner" "k" "body"
    { StatusCode := 200, Body := "reply" } rfl (by decide) rfl rfl rfl).2.2.2
    { ID := "1",
      Choices := [ { Index := 0, Message := { Role := "assistant", Content := "first" } },
                   { Index := 1, Message := { Role := "assistant", Content := "second" } } ] }
    { Index := 0, Message := { Role := "assistant", Content := "first" } }
    [ { Index := 1, Message := { Role := "assistant", Content := "second" } } ]
    (by decide) (by decide) rfl rfl

/-- The page the handler renders: the classifier's profile, the three parsed
integers, and either the fetched text or the local advice with the note. -/
theorem resultsHandler_page (w : World) (c : GinContext) :
    (resultsHandler w c).page =
      { Profile := (classifyProfile (mustAtoi (c.PostForm "confidence"))
          (mustAtoi (c.PostForm "worry")) (mustAtoi (c.PostForm "human_skills"))).1,
        Advice :=
          match (groqAdvice w (.withTimeout c.requestContext 15)
              (classifyProfile (mustAtoi (c.PostForm "confidence"))
                (mustAtoi (c.PostForm "worry")) (mustAtoi (c.PostForm "human_skills"))).1).1.2 with
          | some _ =>
            (classifyProfile (mustAtoi (c.PostForm "confidence"))
              (mustAtoi (c.PostForm "worry")) (mustAtoi (c.PostForm "human_skills"))).2
              ++ "\n\n(Note: AI advice unavailable, showing local guidance.)"
          | none =>
            (groqAdvice w (.withTimeout c.requestContext 15)
              (classifyProfile (mustAtoi (c.PostForm "confidence"))
                (mustAtoi (c.PostForm "worry")) (mustAtoi (c.PostForm "human_skills"))).1).1.1,
        Conf := mustAtoi (c.PostForm "confidence"),
        Worry := mustAtoi (c.PostForm "worry"),
        Human := mustAtoi (c.PostForm "human_skills") } := by
  unfold resultsHandler
  simp only []
  cases (groqAdvice w (.withTimeout c.requestContext 15)
      (classifyProfile (mustAtoi (c.PostForm "confidence"))
        (mustAtoi (c.PostForm "worry")) (mustAtoi (c.PostForm "human_skills"))).1).1.2 with
  | none => rfl
  | some e => rfl

/-- C7: the page rendered by the `/results` handler carries the profile name
of `classifyProfile` and the three parsed integers, and its advice is either
the fetched text unchanged (when `groqAdvice` succeeds) or the local advice of
`classifyProfile` followed by the note (when `groqAdvice` fails: missing
credential, transport error, status outside 200..299, undecodable body, no
choices). -/
theorem resultsHandler_advice (w : World) (c : GinContext) (conf worry human : Int)
    (profile localTip : String)
    (hconf : conf = mustAtoi (c.PostForm "confidence"))
    (hworry : worry = mustAtoi (c.PostForm "worry"))
    (hhuman : human = mustAtoi (c.PostForm "human_skills"))
    (hcls : classifyProfile conf worry human = (profile, localTip)) :
    (resultsHandler w c).page.Profile = profile
      ∧ (resultsHandler w c).page.Conf = conf
      ∧ (resultsHandler w c).page.Worry = worry
      ∧ (resultsHandler w c).page.Human = human
      ∧ ((resultsHandler w c).page.Advice
            = (groqAdvice w (.withTimeout c.requestContext 15) profile).1.1
          ∨ (resultsHandler w c).page.Advice
            = localTip ++ "\n\n(Note: AI advice unavailable, showing local guidance.)")
      ∧ ((groqAdvice w (.withTimeout c.requestContext 15) profile).1.2 = none →
          (resultsHandler w c).page.Advice
            = (groqAdvice w (.withTimeout c.requestContext 15) profile).1.1)
      ∧ ((groqAdvice w (.withTimeout c.requestContext 15) profile).1.2 ≠ none →
          (resultsHandler w c).page.Advice
            = localTip ++ "\n\n(Note: AI advice unavailable, showing local guidance.)")
      ∧ ((w.env "GROQ_API_KEY" = none ∨ w.env "GROQ_API_KEY" = some "") →
          (resultsHandler w c).page.Advice
            = localTip ++ "\n\n(Note: AI advice unavailable, showing local guidance.)")
      ∧ (∀ key buf, w.env "GROQ_API_KEY" = some key → key ≠ "" →
          w.jsonEncode (reqBody profile) = .ok buf →
          w.newRequestError "POST" endpoint = none →
          (∀ e, w.clientDo groqClient
                (outboundRequest (.withTimeout c.requestContext 15) key buf) = .error e →
              (resultsHandler w c).page.Advice
                = localTip ++ "\n\n(Note: AI advice unavailable, showing local guidance.)")
          ∧ (∀ resp, w.clientDo groqClient
                (outboundRequest (.withTimeout c.requestContext 15) key buf) = .ok resp →
              ((resp.StatusCode < 200 ∨ resp.StatusCode ≥ 300) →
                (resultsHandler w c).page.Advice
                  = localTip ++ "\n\n(Note: AI advice unavailable, showing local guidance.)")
              ∧ (∀ e, w.jsonDecode resp.Body = .error e →
                (resultsHandler w c).page.Advice
                  = localTip ++ "\n\n(Note: AI advice unavailable, showing local guidance.)")
              ∧ (∀ payload, w.jsonDecode resp.Body = .ok payload → payload.Choices = [] →
                (resultsHandler w c).page.Advice
                  = localTip ++ "\n\n(Note: AI advice unavailable, showing local guidance.)")
              ∧ (∀ payload choice rest, 200 ≤ resp.StatusCode → resp.StatusCode < 300 →
                w.jsonDecode resp.Body = .ok payload → payload.Choices = choice :: rest →
                (resultsHandler w c).page.Advice = choice.Message.Content))) := by
  have hpage := resultsHandler_page w c
  rw [← hconf, ← hworry, ← hhuman, hcls] at hpage
  simp only [] at hpage
  have hok : (groqAdvice w (.withTimeout c.requestContext 15) profile).1.2 = none →
      (resultsHandler w c).page.Advice
        = (groqAdvice w (.withTimeout c.requestContext 15) profile).1.1 := by
    intro h
    rw [hpage, h]
  have hfail : (groqAdvice w (.withTimeout c.requestContext 15) profile).1.2 ≠ none →
      (resultsHandler w c).page.Advice
        = localTip ++ "\n\n(Note: AI advice unavailable, showing local guidance.)" := by
    intro h
    rw [hpage]
    cases hg : (groqAdvice w (.withTimeout c.requestContext 15) profile).1.2 with
    | none => exact absurd hg h
    | some e => rfl
  refine ⟨by rw [hpage], by rw [hpage], by rw [hpage], by rw [hpage], ?_, hok, hfail, ?_, ?_⟩
  · cases hg : (groqAdvice w (.withTimeout c.requestContext 15) profile).1.2 with
    | none => exact Or.inl (hok hg)
    | some e => exact Or.inr (hfail (by rw [hg]; simp))
  · intro hkey
    apply hfail
    rw [groqAdvice_no_key w _ profile hkey]
    simp
  · intro key buf hkey hne henc hnew
    refine ⟨?_, ?_⟩
    · intro e hdo
      apply hfail
      rw [groqAdvice_transport_error w _ profile key buf e hkey hne henc hnew hdo]
      simp
    · intro resp hdo
      have h := groqAdvice_after_response w _ profile key buf resp hkey hne henc hnew hdo
      refine ⟨?_, ?_, ?_, ?_⟩
      · intro hs
        apply hfail
        rw [h, if_pos hs]
        simp
      · intro e he
        apply hfail
        rw [h]
        split_ifs
        · simp
        · simp [he]
      · intro payload hp hc
        apply hfail
        rw [h]
        split_ifs
        · simp
        · simp [hp, hc]
      · intro payload choice rest h1 h2 hp hc
        have hres : (groqAdvice w (.withTimeout c.requestContext 15) profile).1
            = (choice.Message.Content, none) := by
          rw [h, if_neg (by omega)]
          simp [hp, hc]
        rw [hok (by rw [hres]), hres]

/-- Witness of C7: the submission `5, 5, 1` in a world without the credential
renders the local advice of "Aware but Anxious" followed by the note. -/
theorem resultsHandler_advice_witness :
    (resultsHandler noKeyWorld sampleForm).page.Profile = "Aware but Anxious"
      ∧ (resultsHandler noKeyWorld sampleForm).page.Advice
          = "You understand AI well, but you’re concerned about job impact. Focus on adapting and building human-AI collaboration skills."
            ++ "\n\n(Note: AI advice unavailable, showing local guidance.)" :=
  ⟨(resultsHandler_advice noKeyWorld sampleForm 5 5 1 _ _
      (by decide) (by decide) (by decide) rfl).1,
   (resultsHandler_advice noKeyWorld sampleForm 5 5 1 _ _
      (by decide) (by decide) (by decide) rfl).2.2.2.2.2.2.2.1 (Or.inl rfl)⟩

end AiAnxiety
